import Mathlib

/-!
Shallow embedding of the multi-waypoint routing backend (src/main.py) and
verification of its specification's claims.

The external collaborators (LLM intent extractor, Google geocoding, nearby
place search, place details, directions) are modelled as oracle functions
collected in an `Env`.  Every invocation of a collaborator performed by the
embedded code is additionally recorded in an external-call trace, so that
claims about which calls are made (and with what arguments) can be stated.

Coordinates are opaque data in the source: they are produced by collaborators
and carried around (compared, formatted, appended) but never subjected to
arithmetic, so they are modelled as integer pairs.

Python runtime errors that the source can actually raise on the modelled
paths (a `KeyError` from `wp["type"]` / `wp["value"]` on a waypoint entry
lacking that field, an `IndexError` from indexing an empty list) are modelled
with `Except PyErr`.
-/

namespace Polaris

/-- Coordinates `(lat, lng)`; opaque values carried by the pipeline. -/
abbrev Coord := Int × Int

/-- Result of `get_place_details` (src/main.py lines 173-193): opening-hours
text lines and photo reference URLs. -/
structure PlaceDetails where
  hours : List String
  photos : List String
deriving DecidableEq, Repr

/-- Result tuple `(lat, lng, name, address, place_id)` of `find_nearest_place`
(src/main.py lines 150-171). -/
structure PlaceInfo where
  coord : Coord
  name : String
  vicinity : String
  placeId : String
deriving DecidableEq, Repr

/-- One entry of the extractor's `waypoints` list, as a JSON object whose
`type` and `value` keys may each be absent (`wp["type"]` / `wp["value"]`
raise `KeyError` when the key is missing). -/
structure RawWaypoint where
  type : Option String
  value : Option String
deriving DecidableEq, Repr

/-- The dict returned by `extract_waypoints` (parsed LLM JSON); each of the
three keys may be absent, `parsed.get` supplies the defaults
(src/main.py lines 259-261). -/
structure ParsedDict where
  waypoints : Option (List RawWaypoint)
  round_trip : Option Bool
  extra_notes : Option String
deriving DecidableEq, Repr

/-- One detailed waypoint dict appended to `detailed_waypoints`
(src/main.py lines 308-315 and 340-347). -/
structure DW where
  name : String
  address : String
  coordinates : Coord
  type : String
  hours : List String
  photos : List String
deriving DecidableEq, Repr

/-- One legs-metadata entry `{distance, duration}`
(src/main.py lines 229-232). -/
structure LegInfo where
  distance : String
  duration : String
deriving DecidableEq, Repr

/-- The dict returned by `process_user_prompt`.  Failure returns carry no
`legs` key; the HTTP layer reads it with `result.get("legs", [])`
(src/main.py line 428), so an absent key is modelled as `[]`. -/
structure Outcome where
  polyline : Option String
  instructions : List String
  waypoints : List DW
  round_trip : Bool
  notes : String
  legs : List LegInfo
deriving DecidableEq, Repr

/-- Python runtime errors reachable in the modelled code. -/
inductive PyErr where
  | keyError : String → PyErr
  | indexError : PyErr
deriving DecidableEq, Repr

/-- One outbound network call to an external collaborator. -/
inductive ExtCall where
  | geocode : String → ExtCall
  | nearby : Coord → String → ExtCall
  | details : String → ExtCall
  | directions : List Coord → ExtCall
deriving DecidableEq, Repr

/-- One step of a directions leg: raw HTML instruction text and distance text
(src/main.py lines 234-236). -/
structure GStep where
  html_instructions : String
  distanceText : String
deriving DecidableEq, Repr

/-- One leg of the directions response (src/main.py lines 226-236). -/
structure GLeg where
  distanceText : String
  durationText : String
  steps : List GStep
deriving DecidableEq, Repr

/-- The first route of a status-OK directions response: the overview polyline
encoding and the legs (src/main.py lines 220-221). -/
structure GRoute where
  overview : String
  legs : List GLeg
deriving DecidableEq, Repr

/-- The external collaborators.  `llm prompt = none` models
`extract_waypoints` hitting an exception (API failure or invalid JSON);
`geocode`, `nearby`, `directions` return `none` when the service reports no
match / no route (non-OK status). -/
structure Env where
  llm : String → Option ParsedDict
  geocode : String → Option Coord
  nearby : Coord → String → Option PlaceInfo
  details : String → PlaceDetails
  directions : List Coord → Option GRoute

/-- The early-return dict of src/main.py lines 283-289: first waypoint is a
place type. -/
def firstPlaceTypeOutcome : Outcome where
  polyline := none
  instructions := []
  waypoints := []
  round_trip := false
  notes := "Your first waypoint is a place type, but no origin was provided."
  legs := []

/-- The early-return dict of src/main.py lines 294-300: geocoding failed. -/
def geocodeFailOutcome (rt : Bool) (v : String) : Outcome where
  polyline := none
  instructions := []
  waypoints := []
  round_trip := rt
  notes := "Could not geocode address: " ++ v
  legs := []

/-- The early-return dict of src/main.py lines 319-325: a place-type waypoint
with no prior coordinate. -/
def noOriginOutcome (rt : Bool) : Outcome where
  polyline := none
  instructions := []
  waypoints := []
  round_trip := rt
  notes := "No origin available for place search. Please specify an address first."
  legs := []

/-- The early-return dict of src/main.py lines 329-335: nearby search found
nothing. -/
def noNearbyOutcome (rt : Bool) (v : String) : Outcome where
  polyline := none
  instructions := []
  waypoints := []
  round_trip := rt
  notes := "Could not find a nearby place for: " ++ v
  legs := []

/-- The early-return dict of src/main.py lines 264-270: no waypoints parsed. -/
def cantParseOutcome : Outcome where
  polyline := none
  instructions := []
  waypoints := []
  round_trip := false
  notes := "I couldn't parse any valid stops from your request."
  legs := []

/-- The early-return dict of src/main.py lines 355-361: fewer than two
coordinates. -/
def notEnoughOutcome (rt : Bool) : Outcome where
  polyline := none
  instructions := []
  waypoints := []
  round_trip := rt
  notes := "Not enough waypoints to create a route."
  legs := []

/-- The early-return dict of src/main.py lines 366-372: directions request
failed (falsy overview polyline). -/
def dirFailOutcome (rt : Bool) (dws : List DW) : Outcome where
  polyline := none
  instructions := []
  waypoints := dws
  round_trip := rt
  notes := "Directions request failed. Please try again."
  legs := []

/-- Scan for the first unescaped close of a tag: returns the remainder after
the first literal char `>` , failing at a `<` or at end of input.  Models the
continuation of the non-greedy class `[^<]+?` followed by `>` in the regex
at src/main.py line 235. -/
def findTagEnd : List Char → Option (List Char)
  | [] => none
  | c :: rest => if c = '>' then some rest else if c = '<' then none else findTagEnd rest

/-- Given the characters after a `<` , match the regex tail `[^<]+?>` : at
least one non-`<` character, then the first `>` . -/
def tagMatch : List Char → Option (List Char)
  | [] => none
  | c :: rest => if c = '<' then none else findTagEnd rest

/-- Left-to-right scan of `re.sub('<[^<]+?>', '', s)` (src/main.py
line 235): at each `<` , drop the shortest complete tag if one starts
here, else keep the character and move on.  The fuel argument (instantiated
with the length of the list, which bounds the number of scan steps) makes the
recursion structural; each step consumes at least one character. -/
def stripTagsAux : Nat → List Char → List Char
  | 0, l => l
  | _ + 1, [] => []
  | fuel + 1, c :: rest =>
    if c = '<' then
      match tagMatch rest with
      | some rest2 => stripTagsAux fuel rest2
      | none => c :: stripTagsAux fuel rest
    else c :: stripTagsAux fuel rest

/-- `re.sub('<[^<]+?>', '', s)` — strip markup tags (src/main.py line 235). -/
def stripTags (s : String) : String :=
  String.mk (stripTagsAux s.data.length s.data)

/-- The instruction string built for one step (src/main.py lines 235-236):
tag-stripped text, a space, and the step's distance text in parentheses. -/
def stepText (st : GStep) : String :=
  stripTags st.html_instructions ++ " (" ++ st.distanceText ++ ")"

/-- The leg loop of `get_directions_with_waypoints` (src/main.py
lines 226-236): per leg, append its `{distance, duration}` metadata and then
the instruction string of each of its steps, in order. -/
def dirLoop : List GLeg → List String → List LegInfo → List String × List LegInfo
  | [], instructions, legsMetadata => (instructions, legsMetadata)
  | leg :: rest, instructions, legsMetadata =>
    dirLoop rest (instructions ++ leg.steps.map stepText)
      (legsMetadata ++ [{ distance := leg.distanceText, duration := leg.durationText }])

/-- `get_directions_with_waypoints` (src/main.py lines 198-240), with the
network call recorded in the trace.  Fewer than two coordinates returns
`(None, [], [])` without any call; a non-OK response returns the same after
the call; a status-OK response yields the first route's overview polyline,
flattened instructions and legs metadata. -/
def get_directions_with_waypoints (env : Env) (waypointCoordsList : List Coord)
    (tr : List ExtCall) : (Option String × List String × List LegInfo) × List ExtCall :=
  if waypointCoordsList.length < 2 then ((none, [], []), tr)
  else
    let tr2 := tr ++ [ExtCall.directions waypointCoordsList]
    match env.directions waypointCoordsList with
    | none => ((none, [], []), tr2)
    | some route =>
      let (instructions, legsMetadata) := dirLoop route.legs [] []
      ((some route.overview, instructions, legsMetadata), tr2)

/-- The mutable state of the resolution loop: `coords_list` and
`detailed_waypoints` (src/main.py lines 272-273). -/
structure LoopState where
  coords : List Coord
  dws : List DW
deriving DecidableEq, Repr

/-- Classification of one iteration of the resolution loop body. -/
inductive StepRes where
  | err : PyErr → StepRes
  | term : Outcome → StepRes
  | skip : StepRes
  | push : Coord → DW → StepRes
deriving DecidableEq, Repr

/-- Result of running the whole resolution loop: an early `return` with a
terminal outcome, or completion with the final state. -/
inductive LoopRes where
  | term : Outcome → LoopRes
  | done : LoopState → LoopRes
deriving DecidableEq, Repr

/-- One iteration of the resolution loop body of `process_user_prompt`
(src/main.py lines 276-347) for waypoint `wp` at index `i` with current
state `s` : read `wp["type"]` and `wp["value"]` (KeyError if absent); reject a
first `place_type` waypoint; geocode an address (terminal on no match, then
best-effort nearby/details lookups for hours and photos); resolve a
`place_type` against the last coordinate (terminal when none is available or
no nearby match); silently fall through on any other type.  Returns the
classified result together with the external calls made. -/
def resolveStep (env : Env) (rt : Bool) (i : Nat) (wp : RawWaypoint) (s : LoopState) :
    StepRes × List ExtCall :=
  match wp.type with
  | none => (StepRes.err (PyErr.keyError "type"), [])
  | some wpType =>
    match wp.value with
    | none => (StepRes.err (PyErr.keyError "value"), [])
    | some wpValue =>
      if i = 0 ∧ wpType = "place_type" then
        (StepRes.term firstPlaceTypeOutcome, [])
      else if wpType = "address" then
        match env.geocode wpValue with
        | none =>
          (StepRes.term (geocodeFailOutcome rt wpValue), [ExtCall.geocode wpValue])
        | some loc =>
          match env.nearby loc wpValue with
          | some pi =>
            let pd := env.details pi.placeId
            (StepRes.push loc
              ⟨wpValue, wpValue, loc, "Address", pd.hours, pd.photos⟩,
             [ExtCall.geocode wpValue, ExtCall.nearby loc wpValue, ExtCall.details pi.placeId])
          | none =>
            (StepRes.push loc
              ⟨wpValue, wpValue, loc, "Address", [], []⟩,
             [ExtCall.geocode wpValue, ExtCall.nearby loc wpValue])
      else if wpType = "place_type" then
        match s.coords.getLast? with
        | none =>
          (StepRes.term (noOriginOutcome rt), [])
        | some origin =>
          match env.nearby origin wpValue with
          | none =>
            (StepRes.term (noNearbyOutcome rt wpValue), [ExtCall.nearby origin wpValue])
          | some pi =>
            let pd := env.details pi.placeId
            (StepRes.push pi.coord
              ⟨pi.name, pi.vicinity, pi.coord, "Place Type - " ++ wpValue, pd.hours, pd.photos⟩,
             [ExtCall.nearby origin wpValue, ExtCall.details pi.placeId])
      else (StepRes.skip, [])

/-- The resolution loop `for i, wp in enumerate(waypoints)` (src/main.py
lines 276-347): run `resolveStep` on each waypoint in order, threading the
index, the state and the call trace; an error or early `return` stops the
loop, a push appends one coordinate and one detailed waypoint to the state. -/
def resolveLoop (env : Env) (rt : Bool) :
    Nat → List RawWaypoint → LoopState → List ExtCall → Except PyErr LoopRes × List ExtCall
  | _, [], s, tr => (Except.ok (LoopRes.done s), tr)
  | i, wp :: rest, s, tr =>
    match resolveStep env rt i wp s with
    | (StepRes.err e, calls) => (Except.error e, tr ++ calls)
    | (StepRes.term out, calls) => (Except.ok (LoopRes.term out), tr ++ calls)
    | (StepRes.skip, calls) => resolveLoop env rt (i + 1) rest s (tr ++ calls)
    | (StepRes.push c d, calls) =>
      resolveLoop env rt (i + 1) rest
        { coords := s.coords ++ [c], dws := s.dws ++ [d] } (tr ++ calls)

/-- The round-trip append (src/main.py lines 349-352): when `round_trip` is
set and `coords_list` is non-empty, append `coords_list[0]` and
`detailed_waypoints[0]` (the alias of the first resolved waypoint;
`detailed_waypoints[0]` raises IndexError on an empty list). -/
def postLoop (rt : Bool) (s : LoopState) : Except PyErr (List Coord × List DW) :=
  if rt ∧ s.coords ≠ [] then
    match s.coords.head? with
    | none => Except.error PyErr.indexError
    | some c0 =>
      match s.dws.head? with
      | none => Except.error PyErr.indexError
      | some d0 => Except.ok (s.coords ++ [c0], s.dws ++ [d0])
  else Except.ok (s.coords, s.dws)

/-- Python truthiness test `not overall_poly` (src/main.py line 365): true
for `None` and for the empty string. -/
def pyFalsy : Option String → Bool
  | none => true
  | some s => s.isEmpty

/-- The body of `process_user_prompt` after extraction (src/main.py
lines 259-383), over the parsed extractor dict: read the three keys with
their `get` defaults, return the couldn't-parse outcome on an empty waypoint
list, run the resolution loop, apply the round-trip append, reject fewer than
two coordinates, request directions, and assemble the final outcome (a falsy
overview polyline is the directions-failure outcome).  Returns the outcome
(or the Python error the source would raise) and the external-call trace. -/
def processParsedT (env : Env) (parsed : ParsedDict) :
    Except PyErr Outcome × List ExtCall :=
  let waypoints := parsed.waypoints.getD []
  let round_trip := parsed.round_trip.getD false
  let notes := parsed.extra_notes.getD ""
  if waypoints = [] then
    (Except.ok cantParseOutcome, [])
  else
    match resolveLoop env round_trip 0 waypoints ⟨[], []⟩ [] with
    | (Except.error e, tr) => (Except.error e, tr)
    | (Except.ok (LoopRes.term out), tr) => (Except.ok out, tr)
    | (Except.ok (LoopRes.done s), tr) =>
      match postLoop round_trip s with
      | Except.error e => (Except.error e, tr)
      | Except.ok (coordsList, detailedWaypoints) =>
        if coordsList.length < 2 then
          (Except.ok (notEnoughOutcome round_trip), tr)
        else
          match get_directions_with_waypoints env coordsList tr with
          | ((overallPoly, stepInstructions, legMetadata), tr2) =>
            if pyFalsy overallPoly then
              (Except.ok (dirFailOutcome round_trip detailedWaypoints), tr2)
            else
              (Except.ok ⟨overallPoly, stepInstructions, detailedWaypoints, round_trip, notes, legMetadata⟩, tr2)

/-- `extract_waypoints` (src/main.py lines 103-128): the LLM's parsed JSON,
or the default dict when the call or JSON parsing fails. -/
def extract_waypoints (env : Env) (user_prompt : String) : ParsedDict :=
  match env.llm user_prompt with
  | some parsed => parsed
  | none =>
    { waypoints := some [], round_trip := some false,
      extra_notes := some "Error or invalid JSON from LLM." }

/-- `process_user_prompt` (src/main.py lines 246-383) end to end. -/
def process_user_prompt (env : Env) (user_prompt : String) :
    Except PyErr Outcome × List ExtCall :=
  processParsedT env (extract_waypoints env user_prompt)

/-- A collaborator environment in which every external service fails. -/
def envNone : Env where
  llm := fun _ => none
  geocode := fun _ => none
  nearby := fun _ _ => none
  details := fun _ => ⟨[], []⟩
  directions := fun _ => none

/-- A one-leg route with a markup-tagged step, for concrete runs. -/
def routeDemo : GRoute :=
  ⟨"poly", [⟨"1 km", "5 min", [⟨"Turn <b>left</b>", "1 km"⟩]⟩]⟩

/-- A collaborator environment that geocodes the addresses A and B, finds no
auxiliary nearby place, and returns `routeDemo` for every directions
request. -/
def envTwoStops : Env where
  llm := fun _ => none
  geocode := fun a => if a = "A" then some (1, 2) else if a = "B" then some (3, 4) else none
  nearby := fun _ _ => none
  details := fun _ => ⟨[], []⟩
  directions := fun _ => some routeDemo

/-- Like `envTwoStops` but the directions collaborator reports no route. -/
def envNoRoute : Env where
  llm := fun _ => none
  geocode := fun a => if a = "A" then some (1, 2) else if a = "B" then some (3, 4) else none
  nearby := fun _ _ => none
  details := fun _ => ⟨[], []⟩
  directions := fun _ => none

/-- Like `envTwoStops` but the directions response carries an empty overview
polyline encoding (while still containing a leg with a step). -/
def envEmptyPoly : Env where
  llm := fun _ => none
  geocode := fun a => if a = "A" then some (1, 2) else if a = "B" then some (3, 4) else none
  nearby := fun _ _ => none
  details := fun _ => ⟨[], []⟩
  directions := fun _ => some ⟨"", [⟨"1 km", "5 min", [⟨"Turn <b>left</b>", "1 km"⟩]⟩]⟩

/-- Two well-formed address entries, as the extractor returns them. -/
def twoAddressWps : List RawWaypoint :=
  [⟨some "address", some "A"⟩, ⟨some "address", some "B"⟩]

/-- The detailed waypoint that resolving address A yields in the test
environments. -/
def dwA : DW := ⟨"A", "A", (1, 2), "Address", [], []⟩

/-- The detailed waypoint that resolving address B yields in the test
environments. -/
def dwB : DW := ⟨"B", "B", (3, 4), "Address", [], []⟩

/-- The resolution-phase call trace of resolving addresses A then B in the
test environments. -/
def trAB : List ExtCall :=
  [ExtCall.geocode "A", ExtCall.nearby (1, 2) "A",
   ExtCall.geocode "B", ExtCall.nearby (3, 4) "B"]

/-! ## Helper lemmas about one resolution step -/

/-- A resolution step never calls the directions collaborator. -/
theorem resolveStep_no_directions (env : Env) (rt : Bool) (i : Nat) (wp : RawWaypoint)
    (s : LoopState) (l : List Coord) :
    ExtCall.directions l ∉ (resolveStep env rt i wp s).2 := by
  rcases wp with ⟨t, v⟩
  cases t with
  | none => simp [resolveStep]
  | some t =>
    cases v with
    | none => simp [resolveStep]
    | some v =>
      simp only [resolveStep]
      repeat' first
      | split
      | simp_all

/-- A resolution step on an entry that has both fields never raises. -/
theorem resolveStep_no_err (env : Env) (rt : Bool) (i : Nat) (wp : RawWaypoint)
    (s : LoopState) (ht : wp.type.isSome) (hv : wp.value.isSome) (e : PyErr) :
    (resolveStep env rt i wp s).1 ≠ StepRes.err e := by
  rcases wp with ⟨t, v⟩
  cases t with
  | none => simp at ht
  | some t =>
    cases v with
    | none => simp at hv
    | some v =>
      simp only [resolveStep]
      repeat' first
      | split
      | simp_all

/-- A resolution step on an `address` or `place_type` entry is never a silent
skip. -/
theorem resolveStep_known_not_skip (env : Env) (rt : Bool) (i : Nat) (wp : RawWaypoint)
    (s : LoopState) (hk : wp.type = some "address" ∨ wp.type = some "place_type") :
    (resolveStep env rt i wp s).1 ≠ StepRes.skip := by
  rcases wp with ⟨t, v⟩
  rcases hk with hk | hk <;> subst hk
  all_goals
    cases v with
    | none => simp [resolveStep]
    | some v =>
      simp only [resolveStep]
      repeat' first
      | split
      | simp_all

/-! ## Helper lemmas about the resolution loop -/

/-- The loop over a concatenation whose first part completes without a
terminal continues over the second part with the index advanced. -/
theorem resolveLoop_append_done (env : Env) (rt : Bool) (xs : List RawWaypoint) :
    ∀ (ys : List RawWaypoint) (i : Nat) (s : LoopState) (tr : List ExtCall)
      (s2 : LoopState) (tr2 : List ExtCall),
    resolveLoop env rt i xs s tr = (Except.ok (LoopRes.done s2), tr2) →
    resolveLoop env rt i (xs ++ ys) s tr = resolveLoop env rt (i + xs.length) ys s2 tr2 := by
  induction xs with
  | nil =>
    intro ys i s tr s2 tr2 hrun
    simp only [resolveLoop, Prod.mk.injEq, Except.ok.injEq, LoopRes.done.injEq] at hrun
    rw [List.nil_append, List.length_nil, Nat.add_zero, hrun.1, hrun.2]
  | cons wp xs ih =>
    intro ys i s tr s2 tr2 hrun
    simp only [resolveLoop] at hrun
    simp only [List.cons_append, resolveLoop, List.length_cons]
    have harith : i + (xs.length + 1) = i + 1 + xs.length := by omega
    rw [harith]
    cases hstep : resolveStep env rt i wp s with
    | mk res calls =>
      rw [hstep] at hrun
      cases res with
      | err e => simp at hrun
      | term out => simp at hrun
      | skip => exact ih ys (i + 1) s (tr ++ calls) s2 tr2 hrun
      | push c d => exact ih ys (i + 1) _ (tr ++ calls) s2 tr2 hrun

/-- The loop makes no directions call beyond those already in the incoming
trace. -/
theorem resolveLoop_no_directions (env : Env) (rt : Bool) (wps : List RawWaypoint) :
    ∀ (i : Nat) (s : LoopState) (tr : List ExtCall) (l : List Coord),
    ExtCall.directions l ∉ tr →
    ExtCall.directions l ∉ (resolveLoop env rt i wps s tr).2 := by
  induction wps with
  | nil => intro i s tr l htr; simpa [resolveLoop] using htr
  | cons wp xs ih =>
    intro i s tr l htr
    have hstepcall := resolveStep_no_directions env rt i wp s l
    have happ : ExtCall.directions l ∉ tr ++ (resolveStep env rt i wp s).2 := by
      intro hmem
      rcases List.mem_append.mp hmem with h | h
      · exact htr h
      · exact hstepcall h
    simp only [resolveLoop]
    cases hstep : resolveStep env rt i wp s with
    | mk res calls =>
      rw [hstep] at happ
      cases res with
      | err e => exact happ
      | term out => exact happ
      | skip => exact ih (i + 1) s (tr ++ calls) l happ
      | push c d => exact ih (i + 1) _ (tr ++ calls) l happ

/-- On a waypoint list whose entries all carry both fields, the loop never
raises. -/
theorem resolveLoop_no_err (env : Env) (rt : Bool) (wps : List RawWaypoint) :
    ∀ (i : Nat) (s : LoopState) (tr : List ExtCall),
    (∀ wp ∈ wps, wp.type.isSome ∧ wp.value.isSome) →
    ∃ r tr2, resolveLoop env rt i wps s tr = (Except.ok r, tr2) := by
  induction wps with
  | nil => intro i s tr _; exact ⟨LoopRes.done s, tr, rfl⟩
  | cons wp xs ih =>
    intro i s tr hwf
    have hwp := hwf wp (List.mem_cons_self wp xs)
    have hxs : ∀ w ∈ xs, w.type.isSome ∧ w.value.isSome :=
      fun w hw => hwf w (List.mem_cons_of_mem wp hw)
    simp only [resolveLoop]
    cases hstep : resolveStep env rt i wp s with
    | mk res calls =>
      cases res with
      | err e =>
        exact absurd (by rw [hstep]) (resolveStep_no_err env rt i wp s hwp.1 hwp.2 e)
      | term out => exact ⟨LoopRes.term out, tr ++ calls, rfl⟩
      | skip => exact ih (i + 1) s (tr ++ calls) hxs
      | push c d => exact ih (i + 1) _ (tr ++ calls) hxs

/-- The loop keeps the coordinate list and detailed-waypoint list the same
length: every push appends one element to each. -/
theorem resolveLoop_len_eq (env : Env) (rt : Bool) (wps : List RawWaypoint) :
    ∀ (i : Nat) (s : LoopState) (tr : List ExtCall) (s2 : LoopState) (tr2 : List ExtCall),
    resolveLoop env rt i wps s tr = (Except.ok (LoopRes.done s2), tr2) →
    s.coords.length = s.dws.length →
    s2.coords.length = s2.dws.length := by
  induction wps with
  | nil =>
    intro i s tr s2 tr2 hrun hlen
    simp only [resolveLoop, Prod.mk.injEq, Except.ok.injEq, LoopRes.done.injEq] at hrun
    rw [← hrun.1]
    exact hlen
  | cons wp xs ih =>
    intro i s tr s2 tr2 hrun hlen
    simp only [resolveLoop] at hrun
    cases hstep : resolveStep env rt i wp s with
    | mk res calls =>
      rw [hstep] at hrun
      cases res with
      | err e => simp at hrun
      | term out => simp at hrun
      | skip => exact ih (i + 1) s (tr ++ calls) s2 tr2 hrun hlen
      | push c d =>
        refine ih (i + 1) _ (tr ++ calls) s2 tr2 hrun ?_
        simp [hlen]

/-- When every entry is an `address` or `place_type` entry and the loop
completes, each entry pushed exactly one coordinate and one detailed
waypoint. -/
theorem resolveLoop_known_len (env : Env) (rt : Bool) (wps : List RawWaypoint) :
    ∀ (i : Nat) (s : LoopState) (tr : List ExtCall) (s2 : LoopState) (tr2 : List ExtCall),
    (∀ wp ∈ wps, wp.type = some "address" ∨ wp.type = some "place_type") →
    resolveLoop env rt i wps s tr = (Except.ok (LoopRes.done s2), tr2) →
    s2.coords.length = s.coords.length + wps.length ∧
      s2.dws.length = s.dws.length + wps.length := by
  induction wps with
  | nil =>
    intro i s tr s2 tr2 _ hrun
    simp only [resolveLoop, Prod.mk.injEq, Except.ok.injEq, LoopRes.done.injEq] at hrun
    rw [← hrun.1]
    simp
  | cons wp xs ih =>
    intro i s tr s2 tr2 hk hrun
    have hwp := hk wp (List.mem_cons_self wp xs)
    have hxs : ∀ w ∈ xs, w.type = some "address" ∨ w.type = some "place_type" :=
      fun w hw => hk w (List.mem_cons_of_mem wp hw)
    simp only [resolveLoop] at hrun
    cases hstep : resolveStep env rt i wp s with
    | mk res calls =>
      rw [hstep] at hrun
      cases res with
      | err e => simp at hrun
      | term out => simp at hrun
      | skip =>
        exact absurd (by rw [hstep]) (resolveStep_known_not_skip env rt i wp s hwp)
      | push c d =>
        have := ih (i + 1) _ (tr ++ calls) s2 tr2 hxs hrun
        simp only [List.length_append, List.length_singleton] at this
        constructor <;> [rw [this.1]; rw [this.2]] <;> simp <;> omega

/-- When the loop state keeps its two lists the same length, the round-trip
append never raises. -/
theorem postLoop_ok (rt : Bool) (s : LoopState) (hlen : s.coords.length = s.dws.length) :
    ∃ p, postLoop rt s = Except.ok p := by
  unfold postLoop
  split
  · rename_i h
    have hc : s.coords ≠ [] := h.2
    have hd : s.dws ≠ [] := by
      intro hnil
      rw [hnil, List.length_nil] at hlen
      exact hc (List.length_eq_zero.mp hlen)
    rcases List.exists_cons_of_ne_nil hc with ⟨c0, ctl, hceq⟩
    rcases List.exists_cons_of_ne_nil hd with ⟨d0, dtl, hdeq⟩
    refine ⟨(s.coords ++ [c0], s.dws ++ [d0]), ?_⟩
    rw [hceq, hdeq]
    rfl
  · exact ⟨_, rfl⟩

/-- The leg loop of the route compiler, run from any accumulators, appends
the flattened per-step instruction strings and the per-leg metadata. -/
theorem dirLoop_eq (legs : List GLeg) :
    ∀ (ins : List String) (lm : List LegInfo),
    dirLoop legs ins lm =
      (ins ++ legs.flatMap (fun leg => leg.steps.map stepText),
       lm ++ legs.map (fun leg => ⟨leg.distanceText, leg.durationText⟩)) := by
  induction legs with
  | nil => intro ins lm; simp [dirLoop]
  | cons leg rest ih =>
    intro ins lm
    simp [dirLoop, ih, List.append_assoc]

/-! ## The claims -/

/-- C1: for every extractor output whose first waypoint intent has kind
PlaceType, the pipeline returns the OrderingFailure terminal outcome —
polyline none, empty waypoints and instructions, roundTrip false, notes
explaining that the first waypoint is a place type with no origin —
regardless of the remaining intents and of the extractor's round_trip
flag. -/
theorem claim1_first_place_type_ordering_failure (env : Env) (v : String)
    (rest : List RawWaypoint) (rt : Option Bool) (nts : Option String) :
    (processParsedT env ⟨some (⟨some "place_type", some v⟩ :: rest), rt, nts⟩).1 =
      Except.ok { polyline := none, instructions := [], waypoints := [],
                  round_trip := false,
                  notes := "Your first waypoint is a place type, but no origin was provided.",
                  legs := [] } := by
  unfold processParsedT
  simp [resolveLoop, resolveStep, firstPlaceTypeOutcome]

/-- C8: on a status-OK directions response, the instruction list is the
flattened ordered sequence over all legs in order of each step's
tag-stripped instruction text followed by a space and the step's distance
text in parentheses, and one leg summary (distance text, duration text) is
produced per leg in order. -/
theorem claim8_instructions_flattened (env : Env) (coordsList : List Coord)
    (tr : List ExtCall) (route : GRoute)
    (hlen : 2 ≤ coordsList.length) (hdir : env.directions coordsList = some route) :
    (get_directions_with_waypoints env coordsList tr).1 =
      (some route.overview,
       route.legs.flatMap (fun leg => leg.steps.map
         (fun st => stripTags st.html_instructions ++ " (" ++ st.distanceText ++ ")")),
       route.legs.map (fun leg => { distance := leg.distanceText,
                                    duration := leg.durationText })) := by
  unfold get_directions_with_waypoints
  rw [if_neg (by omega), hdir]
  simp only [dirLoop_eq, List.nil_append]
  rfl

/-- C8 witness: a concrete two-coordinate request against `envTwoStops`
produces the flattened tag-stripped instruction list and per-leg metadata of
`routeDemo`. -/
theorem claim8_instructions_flattened_witness :
    (get_directions_with_waypoints envTwoStops [(1, 2), (3, 4)] []).1 =
      (some "poly", ["Turn left (1 km)"], [{ distance := "1 km", duration := "5 min" }]) := by
  have h := claim8_instructions_flattened envTwoStops [(1, 2), (3, 4)] [] routeDemo
    (by decide) (by rfl)
  rw [h]
  rfl

/-- C4 counterexample: when the extractor fails, the code's terminal outcome
carries the notes string of src/main.py line 269, which is not
"parser error" as the claim states. -/
theorem claim4_parser_error_counterexample :
    (process_user_prompt envNone "anything").1 = Except.ok cantParseOutcome ∧
      cantParseOutcome.notes ≠ "parser error" := by
  exact ⟨rfl, by decide⟩

/-- C4 amended: when the intent extractor fails (or yields no waypoint
entries), the terminal outcome is the empty outcome — polyline none, empty
waypoints and instructions, round_trip false — with notes
"I couldn't parse any valid stops from your request.". -/
theorem claim4_extract_failure_notes (env : Env) (user_prompt : String)
    (h : (extract_waypoints env user_prompt).waypoints.getD [] = []) :
    (process_user_prompt env user_prompt).1 =
      Except.ok { polyline := none, instructions := [], waypoints := [],
                  round_trip := false,
                  notes := "I couldn't parse any valid stops from your request.",
                  legs := [] } := by
  unfold process_user_prompt processParsedT
  simp [h, cantParseOutcome]

/-- C4 amended witness: the all-failing environment at a concrete prompt. -/
theorem claim4_extract_failure_notes_witness :
    (process_user_prompt envNone "take me somewhere").1 =
      Except.ok { polyline := none, instructions := [], waypoints := [],
                  round_trip := false,
                  notes := "I couldn't parse any valid stops from your request.",
                  legs := [] } :=
  claim4_extract_failure_notes envNone "take me somewhere" (by rfl)

/-- C3 counterexample: an extractor output whose single waypoint entry lacks
the type field makes the pipeline raise an uncaught KeyError
(src/main.py line 277) instead of returning an outcome. -/
theorem claim3_missing_field_raises :
    (processParsedT envNone ⟨some [⟨none, some "x"⟩], some false, some ""⟩).1 =
      Except.error (PyErr.keyError "type") := by
  rfl

/-- C3 amended: for every extractor output whose waypoint entries each carry
both the type and the value field, the pipeline returns a well-formed
terminal outcome and never propagates an exception (entries of unknown kind
included); only an entry missing one of those fields raises. -/
theorem claim3_no_exception_when_fields_present (env : Env) (parsed : ParsedDict)
    (h : ∀ wp ∈ parsed.waypoints.getD [], wp.type.isSome ∧ wp.value.isSome) :
    ∃ out, (processParsedT env parsed).1 = Except.ok out := by
  by_cases hw : parsed.waypoints.getD [] = []
  · exact ⟨cantParseOutcome, by simp [processParsedT, hw]⟩
  · obtain ⟨r, tr2, hrun⟩ :=
      resolveLoop_no_err env (parsed.round_trip.getD false) (parsed.waypoints.getD [])
        0 ⟨[], []⟩ [] h
    cases r with
    | term out => exact ⟨out, by simp [processParsedT, hw, hrun]⟩
    | done s =>
      have hlen := resolveLoop_len_eq env (parsed.round_trip.getD false)
        (parsed.waypoints.getD []) 0 ⟨[], []⟩ [] s tr2 hrun rfl
      obtain ⟨p, hpost⟩ := postLoop_ok (parsed.round_trip.getD false) s hlen
      rcases p with ⟨coordsList, dws⟩
      by_cases hlt : coordsList.length < 2
      · exact ⟨notEnoughOutcome (parsed.round_trip.getD false),
          by simp [processParsedT, hw, hrun, hpost, hlt]⟩
      · rcases hdir : get_directions_with_waypoints env coordsList tr2 with ⟨⟨poly, ins, lm⟩, tr3⟩
        by_cases hfal : pyFalsy poly
        · exact ⟨dirFailOutcome (parsed.round_trip.getD false) dws,
            by simp [processParsedT, hw, hrun, hpost, hlt, hdir, hfal]⟩
        · exact ⟨⟨poly, ins, dws, parsed.round_trip.getD false, parsed.extra_notes.getD "", lm⟩,
            by simp [processParsedT, hw, hrun, hpost, hlt, hdir, hfal]⟩

/-- C3 amended witness: a concrete two-address round-trip run returns an
outcome. -/
theorem claim3_no_exception_witness :
    ∃ out, (processParsedT envTwoStops ⟨some twoAddressWps, some true, some "hi"⟩).1 =
      Except.ok out :=
  claim3_no_exception_when_fields_present envTwoStops
    ⟨some twoAddressWps, some true, some "hi"⟩ (by decide)

/-- C9 counterexample: an unknown-kind first intent followed by a PlaceType
intent does not behave as if the unknown intent were absent — the run keeps
the extractor round_trip flag and reports the no-origin failure, while the
run without the unknown intent reports the first-waypoint rejection with
round_trip false. -/
theorem claim9_not_as_if_absent :
    (processParsedT envNone
      ⟨some [⟨some "mystery", some "x"⟩, ⟨some "place_type", some "coffee"⟩],
       some true, some ""⟩).1 = Except.ok (noOriginOutcome true) ∧
    (processParsedT envNone
      ⟨some [⟨some "place_type", some "coffee"⟩], some true, some ""⟩).1 =
      Except.ok firstPlaceTypeOutcome ∧
    noOriginOutcome true ≠ firstPlaceTypeOutcome := by
  refine ⟨rfl, rfl, ?_⟩
  decide

/-- C9 amended: a waypoint entry whose kind is neither "address" nor
"place_type" is silently skipped by the resolution loop — no resolved
waypoint, no coordinate, no external call, no failure — and the loop
continues with the subsequent intents at their original positions (the index
still advances, so a following PlaceType intent is not treated as first). -/
theorem claim9_unknown_kind_skipped (env : Env) (rt : Bool) (i : Nat) (k v : String)
    (rest : List RawWaypoint) (s : LoopState) (tr : List ExtCall)
    (h1 : k ≠ "address") (h2 : k ≠ "place_type") :
    resolveLoop env rt i (⟨some k, some v⟩ :: rest) s tr =
      resolveLoop env rt (i + 1) rest s tr := by
  simp [resolveLoop, resolveStep, h1, h2]

/-- C9 amended witness: a concrete unknown-kind entry is skipped. -/
theorem claim9_unknown_kind_skipped_witness :
    resolveLoop envNone true 0 [⟨some "mystery", some "x"⟩] ⟨[], []⟩ [] =
      resolveLoop envNone true 1 [] ⟨[], []⟩ [] :=
  claim9_unknown_kind_skipped envNone true 0 "mystery" "x" [] ⟨[], []⟩ []
    (by decide) (by decide)

/-- C5: for every Address intent whose address the geocoding collaborator
cannot resolve, reached after the earlier intents resolved without a
terminal, the pipeline returns polyline none, empty waypoints and
instructions, notes "Could not geocode address: " followed by the intent's
value, and the extractor's round_trip flag preserved — regardless of the
remaining intents. -/
theorem claim5_geocode_failure_terminal (env : Env) (rt : Bool) (nts : Option String)
    (pre rest : List RawWaypoint) (v : String) (s : LoopState) (tr : List ExtCall)
    (hpre : resolveLoop env rt 0 pre ⟨[], []⟩ [] = (Except.ok (LoopRes.done s), tr))
    (hgeo : env.geocode v = none) :
    (processParsedT env ⟨some (pre ++ ⟨some "address", some v⟩ :: rest), some rt, nts⟩).1 =
      Except.ok { polyline := none, instructions := [], waypoints := [],
                  round_trip := rt,
                  notes := "Could not geocode address: " ++ v, legs := [] } := by
  have hloopfull : resolveLoop env rt 0 (pre ++ ⟨some "address", some v⟩ :: rest) ⟨[], []⟩ [] =
      (Except.ok (LoopRes.term (geocodeFailOutcome rt v)), tr ++ [ExtCall.geocode v]) := by
    rw [resolveLoop_append_done env rt pre _ 0 ⟨[], []⟩ [] s tr hpre]
    simp [resolveLoop, resolveStep, hgeo]
  simp [processParsedT, hloopfull, geocodeFailOutcome]

/-- C5 witness: the spec's Scenario 5 — a sole address intent
"Nonexistent Place" that the geocoder cannot resolve. -/
theorem claim5_geocode_failure_terminal_witness :
    (processParsedT envNone
      ⟨some [⟨some "address", some "Nonexistent Place"⟩], some false, some ""⟩).1 =
      Except.ok { polyline := none, instructions := [], waypoints := [],
                  round_trip := false,
                  notes := "Could not geocode address: Nonexistent Place", legs := [] } :=
  claim5_geocode_failure_terminal envNone false (some "") [] [] "Nonexistent Place"
    ⟨[], []⟩ [] rfl rfl

/-- C7: when every intent resolves and the directions collaborator reports
no usable route, the terminal outcome carries the full resolved waypoint
list (round-trip alias included, when applied), polyline none, empty
instructions, the round_trip flag preserved, and the directions-failure
notes. -/
theorem claim7_no_route_terminal (env : Env) (wps : List RawWaypoint) (rt : Bool)
    (nts : Option String) (s : LoopState) (tr : List ExtCall)
    (coordsList : List Coord) (dws : List DW)
    (hne : wps ≠ [])
    (hloop : resolveLoop env rt 0 wps ⟨[], []⟩ [] = (Except.ok (LoopRes.done s), tr))
    (hpost : postLoop rt s = Except.ok (coordsList, dws))
    (hlen : 2 ≤ coordsList.length)
    (hdir : env.directions coordsList = none) :
    (processParsedT env ⟨some wps, some rt, nts⟩).1 =
      Except.ok { polyline := none, instructions := [], waypoints := dws,
                  round_trip := rt,
                  notes := "Directions request failed. Please try again.",
                  legs := [] } := by
  have hlt : ¬ coordsList.length < 2 := by omega
  simp [processParsedT, hne, hloop, hpost, hlt, get_directions_with_waypoints, hdir,
    pyFalsy, dirFailOutcome]

/-- C7 witness: two resolvable addresses against a directions collaborator
that reports no route. -/
theorem claim7_no_route_terminal_witness :
    (processParsedT envNoRoute ⟨some twoAddressWps, some false, some ""⟩).1 =
      Except.ok { polyline := none, instructions := [], waypoints := [dwA, dwB],
                  round_trip := false,
                  notes := "Directions request failed. Please try again.",
                  legs := [] } :=
  claim7_no_route_terminal envNoRoute twoAddressWps false (some "")
    ⟨[(1, 2), (3, 4)], [dwA, dwB]⟩ trAB [(1, 2), (3, 4)] [dwA, dwB]
    (by decide) (by rfl) (by rfl) (by decide) (by rfl)

/-- C10: a status-OK directions response whose overview polyline encoding is
the empty string is treated as a route failure — the directions-failure
terminal outcome with polyline none and empty instructions, discarding the
instructions and legs extracted from that response. -/
theorem claim10_empty_polyline_failure (env : Env) (wps : List RawWaypoint) (rt : Bool)
    (nts : Option String) (s : LoopState) (tr : List ExtCall)
    (coordsList : List Coord) (dws : List DW) (route : GRoute)
    (hne : wps ≠ [])
    (hloop : resolveLoop env rt 0 wps ⟨[], []⟩ [] = (Except.ok (LoopRes.done s), tr))
    (hpost : postLoop rt s = Except.ok (coordsList, dws))
    (hlen : 2 ≤ coordsList.length)
    (hdir : env.directions coordsList = some route)
    (hovr : route.overview = "") :
    (processParsedT env ⟨some wps, some rt, nts⟩).1 =
      Except.ok { polyline := none, instructions := [], waypoints := dws,
                  round_trip := rt,
                  notes := "Directions request failed. Please try again.",
                  legs := [] } := by
  have hlt : ¬ coordsList.length < 2 := by omega
  simp [processParsedT, hne, hloop, hpost, hlt, get_directions_with_waypoints, hdir,
    pyFalsy, hovr, dirFailOutcome]
  rw [if_pos (show String.isEmpty "" = true from rfl)]

/-- C10 witness: a directions response with an empty overview encoding but a
non-empty leg is discarded as a failure. -/
theorem claim10_empty_polyline_failure_witness :
    (processParsedT envEmptyPoly ⟨some twoAddressWps, some false, some ""⟩).1 =
      Except.ok { polyline := none, instructions := [], waypoints := [dwA, dwB],
                  round_trip := false,
                  notes := "Directions request failed. Please try again.",
                  legs := [] } :=
  claim10_empty_polyline_failure envEmptyPoly twoAddressWps false (some "")
    ⟨[(1, 2), (3, 4)], [dwA, dwB]⟩ trAB [(1, 2), (3, 4)] [dwA, dwB]
    ⟨"", [⟨"1 km", "5 min", [⟨"Turn <b>left</b>", "1 km"⟩]⟩]⟩
    (by decide) (by rfl) (by rfl) (by decide) (by rfl) (by rfl)

/-- C2: when all N waypoint intents are of known kind and resolution
completes with round_trip set, the final resolved-waypoint list has length
N + 1, its last entry is the identical resolved value of the first entry
(coordinates included), the resolved coordinate list closes the loop, and
the only external call made after the resolution loop is the single
directions request — no fresh resolution call for the appended stop. -/
theorem claim2_round_trip_alias (env : Env) (wps : List RawWaypoint) (nts : Option String)
    (s : LoopState) (tr : List ExtCall)
    (hne : wps ≠ [])
    (hk : ∀ wp ∈ wps, wp.type = some "address" ∨ wp.type = some "place_type")
    (hloop : resolveLoop env true 0 wps ⟨[], []⟩ [] = (Except.ok (LoopRes.done s), tr)) :
    ∃ out c0 d0,
      (processParsedT env ⟨some wps, some true, nts⟩).1 = Except.ok out ∧
      s.coords.head? = some c0 ∧
      s.dws.head? = some d0 ∧
      out.waypoints = s.dws ++ [d0] ∧
      out.waypoints.length = wps.length + 1 ∧
      out.waypoints.getLast? = some d0 ∧
      out.waypoints.head? = some d0 ∧
      (out.waypoints.map DW.coordinates).getLast? = (out.waypoints.map DW.coordinates).head? ∧
      (processParsedT env ⟨some wps, some true, nts⟩).2 =
        tr ++ [ExtCall.directions (s.coords ++ [c0])] ∧
      (s.coords ++ [c0]).getLast? = (s.coords ++ [c0]).head? := by
  obtain ⟨hclen, hdlen⟩ := resolveLoop_known_len env true wps 0 ⟨[], []⟩ [] s tr hk hloop
  simp only [List.length_nil, Nat.zero_add] at hclen hdlen
  have hwlen : 0 < wps.length := List.length_pos.mpr hne
  have hcne : s.coords ≠ [] := by
    intro h0
    rw [h0] at hclen
    simp at hclen
    omega
  have hdne : s.dws ≠ [] := by
    intro h0
    rw [h0] at hdlen
    simp at hdlen
    omega
  rcases List.exists_cons_of_ne_nil hcne with ⟨c0, ctl, hceq⟩
  rcases List.exists_cons_of_ne_nil hdne with ⟨d0, dtl, hdeq⟩
  have hpost : postLoop true s = Except.ok (s.coords ++ [c0], s.dws ++ [d0]) := by
    unfold postLoop
    rw [if_pos ⟨rfl, hcne⟩, hceq, hdeq]
    rfl
  have hnlt : ¬ (s.coords ++ [c0]).length < 2 := by
    simp only [List.length_append, hclen, List.length_singleton]
    omega
  have hnlt2 : ¬ s.coords.length + 1 < 2 := by
    rw [hclen]
    omega
  have hmain : ∃ out,
      processParsedT env ⟨some wps, some true, nts⟩ =
        (Except.ok out, tr ++ [ExtCall.directions (s.coords ++ [c0])]) ∧
      out.waypoints = s.dws ++ [d0] := by
    rcases hdir : env.directions (s.coords ++ [c0]) with _ | route
    · refine ⟨dirFailOutcome true (s.dws ++ [d0]), ?_, rfl⟩
      simp [processParsedT, hne, hloop, hpost, hnlt, hnlt2, get_directions_with_waypoints,
        hdir, pyFalsy, dirFailOutcome]
    · by_cases hov : route.overview.isEmpty
      · refine ⟨dirFailOutcome true (s.dws ++ [d0]), ?_, rfl⟩
        simp [processParsedT, hne, hloop, hpost, hnlt, hnlt2, get_directions_with_waypoints,
          hdir, pyFalsy, hov, dirFailOutcome]
      · refine ⟨⟨some route.overview, (dirLoop route.legs [] []).1, s.dws ++ [d0], true,
          nts.getD "", (dirLoop route.legs [] []).2⟩, ?_, rfl⟩
        simp [processParsedT, hne, hloop, hpost, hnlt, hnlt2, get_directions_with_waypoints,
          hdir, pyFalsy, hov]
  obtain ⟨out, hout, hwq⟩ := hmain
  refine ⟨out, c0, d0, by rw [hout], by rw [hceq]; rfl, by rw [hdeq]; rfl, hwq, ?_, ?_, ?_, ?_,
    by rw [hout], ?_⟩
  · rw [hwq]
    simp [List.length_append, hdlen]
  · rw [hwq]
    exact List.getLast?_concat _
  · rw [hwq, hdeq]
    rfl
  · rw [hwq]
    have h1 : ((s.dws ++ [d0]).map DW.coordinates).getLast? = some d0.coordinates := by
      rw [List.map_append]
      exact List.getLast?_concat _
    have h2 : ((s.dws ++ [d0]).map DW.coordinates).head? = some d0.coordinates := by
      rw [hdeq]
      rfl
    rw [h1, h2]
  · have h1 : (s.coords ++ [c0]).getLast? = some c0 := List.getLast?_concat _
    have h2 : (s.coords ++ [c0]).head? = some c0 := by
      rw [hceq]
      rfl
    rw [h1, h2]

/-- C2 witness: two addresses with round_trip set against `envTwoStops` —
the outcome has three waypoints, the third aliasing the first, and the trace
shows no resolution call beyond the two addresses. -/
theorem claim2_round_trip_alias_witness :
    ∃ out c0 d0,
      (processParsedT envTwoStops ⟨some twoAddressWps, some true, some "hi"⟩).1 =
        Except.ok out ∧
      ([(1, 2), (3, 4)] : List Coord).head? = some c0 ∧
      ([dwA, dwB] : List DW).head? = some d0 ∧
      out.waypoints = [dwA, dwB] ++ [d0] ∧
      out.waypoints.length = twoAddressWps.length + 1 ∧
      out.waypoints.getLast? = some d0 ∧
      out.waypoints.head? = some d0 ∧
      (out.waypoints.map DW.coordinates).getLast? = (out.waypoints.map DW.coordinates).head? ∧
      (processParsedT envTwoStops ⟨some twoAddressWps, some true, some "hi"⟩).2 =
        trAB ++ [ExtCall.directions ([(1, 2), (3, 4)] ++ [c0])] ∧
      (([(1, 2), (3, 4)] : List Coord) ++ [c0]).getLast? =
        (([(1, 2), (3, 4)] : List Coord) ++ [c0]).head? :=
  claim2_round_trip_alias envTwoStops twoAddressWps (some "hi")
    ⟨[(1, 2), (3, 4)], [dwA, dwB]⟩ trAB (by decide) (by decide) (by rfl)

/-- The route compiler's trace on a list long enough to be requested is
exactly one directions call. -/
theorem get_directions_trace (env : Env) (cl : List Coord) (tr : List ExtCall)
    (h : ¬ cl.length < 2) :
    (get_directions_with_waypoints env cl tr).2 = tr ++ [ExtCall.directions cl] := by
  unfold get_directions_with_waypoints
  rw [if_neg h]
  rcases hdir : env.directions cl with _ | route <;> simp [hdir]

/-- C6: the directions collaborator is only ever invoked with a coordinate
list of length at least two; and whenever fewer than two points remain after
resolution and round-trip handling, the pipeline returns the
not-enough-waypoints terminal outcome with polyline none and makes no
directions call at all. -/
theorem claim6_directions_arity (env : Env) (parsed : ParsedDict) :
    (∀ l, ExtCall.directions l ∈ (processParsedT env parsed).2 → 2 ≤ l.length) ∧
    (∀ (s : LoopState) (tr : List ExtCall) (coordsList : List Coord) (dws : List DW),
      parsed.waypoints.getD [] ≠ [] →
      resolveLoop env (parsed.round_trip.getD false) 0 (parsed.waypoints.getD [])
        ⟨[], []⟩ [] = (Except.ok (LoopRes.done s), tr) →
      postLoop (parsed.round_trip.getD false) s = Except.ok (coordsList, dws) →
      coordsList.length < 2 →
      (processParsedT env parsed).1 =
        Except.ok { polyline := none, instructions := [], waypoints := [],
                    round_trip := parsed.round_trip.getD false,
                    notes := "Not enough waypoints to create a route.", legs := [] } ∧
      ∀ l, ExtCall.directions l ∉ (processParsedT env parsed).2) := by
  constructor
  · intro l hmem
    by_cases hw : parsed.waypoints.getD [] = []
    · simp [processParsedT, hw] at hmem
    · have hnodir := resolveLoop_no_directions env (parsed.round_trip.getD false)
        (parsed.waypoints.getD []) 0 ⟨[], []⟩ [] l (by simp)
      rcases hres : resolveLoop env (parsed.round_trip.getD false) 0
          (parsed.waypoints.getD []) ⟨[], []⟩ [] with ⟨res, tr⟩
      rw [hres] at hnodir
      rcases res with e | r
      · simp [processParsedT, hw, hres] at hmem
        exact absurd hmem hnodir
      · rcases r with out | s
        · simp [processParsedT, hw, hres] at hmem
          exact absurd hmem hnodir
        · rcases hpost : postLoop (parsed.round_trip.getD false) s with e | ⟨cl, dws⟩
          · simp [processParsedT, hw, hres, hpost] at hmem
            exact absurd hmem hnodir
          · by_cases hlt : cl.length < 2
            · simp [processParsedT, hw, hres, hpost, hlt] at hmem
              exact absurd hmem hnodir
            · have htr : (processParsedT env parsed).2 = tr ++ [ExtCall.directions cl] := by
                have h2 := get_directions_trace env cl tr hlt
                rcases hgd : get_directions_with_waypoints env cl tr with ⟨⟨poly, ins, lm⟩, tr2⟩
                rw [hgd] at h2
                by_cases hfal : pyFalsy poly <;>
                  simp [processParsedT, hw, hres, hpost, hlt, hgd, hfal, h2]
              rw [htr] at hmem
              rcases List.mem_append.mp hmem with hin | hin
              · exact absurd hin hnodir
              · simp only [List.mem_singleton, ExtCall.directions.injEq] at hin
                rw [hin]
                omega
  · intro s tr coordsList dws hw hloop hpost hlt
    constructor
    · simp [processParsedT, hw, hloop, hpost, hlt, notEnoughOutcome]
    · intro l
      have hnodir := resolveLoop_no_directions env (parsed.round_trip.getD false)
        (parsed.waypoints.getD []) 0 ⟨[], []⟩ [] l (by simp)
      rw [hloop] at hnodir
      simp only [processParsedT, hw, hloop, hpost, hlt]
      simp [hw, hlt]
      exact fun hin => hnodir hin

/-- C6 witness: a two-address run whose trace contains a two-coordinate
directions call, and a one-address run that ends in the not-enough-waypoints
terminal with no directions call. -/
theorem claim6_directions_arity_witness :
    (2 ≤ ([(1, 2), (3, 4)] : List Coord).length) ∧
    ((processParsedT envTwoStops ⟨some [⟨some "address", some "A"⟩], some false, some ""⟩).1 =
        Except.ok { polyline := none, instructions := [], waypoints := [],
                    round_trip := false,
                    notes := "Not enough waypoints to create a route.", legs := [] } ∧
      ∀ l, ExtCall.directions l ∉
        (processParsedT envTwoStops ⟨some [⟨some "address", some "A"⟩], some false, some ""⟩).2) := by
  constructor
  · exact (claim6_directions_arity envTwoStops ⟨some twoAddressWps, some false, some ""⟩).1
      [(1, 2), (3, 4)] (by decide)
  · exact (claim6_directions_arity envTwoStops
      ⟨some [⟨some "address", some "A"⟩], some false, some ""⟩).2
      ⟨[(1, 2)], [dwA]⟩ [ExtCall.geocode "A", ExtCall.nearby (1, 2) "A"] [(1, 2)] [dwA]
      (by decide) (by rfl) (by rfl) (by decide)

end Polaris
